import Mathlib

/-!
Shallow embedding of the GT-511C3 fingerprint-scanner protocol driver
(`core/arch/arm/pta/pta_gt511c3.c`).

Bytes are modelled as `Nat` values (real transport bytes are `< 256`);
multi-byte fields are little-endian, as on the ARM target, and 16-bit
quantities are unsigned bit patterns in `[0, 65536)` (the C code stores
them in `int16_t`; two `int16_t` values are `==`-equal exactly when their
16-bit patterns are equal, so the wrap `% 65536` is the faithful view).
The UART is modelled by the list of bytes it delivers, in order; the
driver only ever reads a prefix of that list.
-/

namespace GT511C3

/-! ### TEE result codes (GlobalPlatform `tee_api_defines.h`) -/

def TEE_SUCCESS : Nat := 0x00000000
def TEE_ERROR_GENERIC : Nat := 0xFFFF0000
def TEE_ERROR_ACCESS_DENIED : Nat := 0xFFFF0001
def TEE_ERROR_CANCEL : Nat := 0xFFFF0002
def TEE_ERROR_BAD_PARAMETERS : Nat := 0xFFFF0006
def TEE_ERROR_BAD_STATE : Nat := 0xFFFF0007
def TEE_ERROR_NOT_SUPPORTED : Nat := 0xFFFF000A
def TEE_ERROR_NO_DATA : Nat := 0xFFFF000B
def TEE_ERROR_OUT_OF_MEMORY : Nat := 0xFFFF000C
def TEE_ERROR_BUSY : Nat := 0xFFFF000D
def TEE_ERROR_COMMUNICATION : Nat := 0xFFFF000E
def TEE_ERROR_SHORT_BUFFER : Nat := 0xFFFF0010

/-! ### GT511C3 device status codes (`enum gt511C3_status`) -/

def GT511C3_SUCCESS : Nat := 0x0000
def GT511C3_STATUS_TIMEOUT : Nat := 0x1001
def GT511C3_STATUS_INVALID_BAUDRATE : Nat := 0x1002
def GT511C3_STATUS_INVALID_POS : Nat := 0x1003
def GT511C3_STATUS_IS_NOT_USED : Nat := 0x1004
def GT511C3_STATUS_IS_ALREADY_USED : Nat := 0x1005
def GT511C3_STATUS_COMM_ERR : Nat := 0x1006
def GT511C3_STATUS_VERIFY_FAILED : Nat := 0x1007
def GT511C3_STATUS_IDENTIFY_FAILED : Nat := 0x1008
def GT511C3_STATUS_DB_IS_FULL : Nat := 0x1009
def GT511C3_STATUS_DB_IS_EMPTY : Nat := 0x100A
def GT511C3_STATUS_TURN_ERR : Nat := 0x100B
def GT511C3_STATUS_BAD_FINGER : Nat := 0x100C
def GT511C3_STATUS_ENROLL_FAILED : Nat := 0x100D
def GT511C3_STATUS_IS_NOT_SUPPORTED : Nat := 0x100E
def GT511C3_STATUS_DEV_ERR : Nat := 0x100F
def GT511C3_STATUS_CAPTURE_CANCELED : Nat := 0x1010
def GT511C3_STATUS_INVALID_PARAM : Nat := 0x1011
def GT511C3_STATUS_FINGER_IS_NOT_PRESSED : Nat := 0x1012
def GT511C3_STATUS_INVALID : Nat := 0xFFFF

/-- The full value set of `enum gt511C3_status`. -/
def gt511C3_status_values : List Nat :=
  [GT511C3_SUCCESS, GT511C3_STATUS_TIMEOUT, GT511C3_STATUS_INVALID_BAUDRATE,
   GT511C3_STATUS_INVALID_POS, GT511C3_STATUS_IS_NOT_USED,
   GT511C3_STATUS_IS_ALREADY_USED, GT511C3_STATUS_COMM_ERR,
   GT511C3_STATUS_VERIFY_FAILED, GT511C3_STATUS_IDENTIFY_FAILED,
   GT511C3_STATUS_DB_IS_FULL, GT511C3_STATUS_DB_IS_EMPTY,
   GT511C3_STATUS_TURN_ERR, GT511C3_STATUS_BAD_FINGER,
   GT511C3_STATUS_ENROLL_FAILED, GT511C3_STATUS_IS_NOT_SUPPORTED,
   GT511C3_STATUS_DEV_ERR, GT511C3_STATUS_CAPTURE_CANCELED,
   GT511C3_STATUS_INVALID_PARAM, GT511C3_STATUS_FINGER_IS_NOT_PRESSED,
   GT511C3_STATUS_INVALID]

/-! ### Protocol constants -/

def GT511C3_CMD_START_CODE1 : Nat := 0x55
def GT511C3_CMD_START_CODE2 : Nat := 0xAA
def GT511C3_CMD_DEVICE_ID : Nat := 0x0001

def GT511C3_RSP_START_CODE1 : Nat := 0x55
def GT511C3_RSP_START_CODE2 : Nat := 0xAA
def GT511C3_RSP_NACK : Nat := 0x31

def GT511C3_DATA_START_CODE1 : Nat := 0x5A
def GT511C3_DATA_START_CODE2 : Nat := 0xA5

def GT511C3_CMD_OPEN : Nat := 0x01
def GT511C3_CMD_GET_ENROLL_COUNT : Nat := 0x20

/-- `GT511C3_MAX_PAYLOAD` = 64 * 1024; also `sizeof(gt511C3_data_frame)`,
the static receive buffer in `gt511C3_recv_data`. -/
def GT511C3_MAX_PAYLOAD : Nat := 64 * 1024

/-- `sizeof(gt511C3_data)`: packed struct of two `uint8_t`, one `int16_t`
and a one-byte flexible-array placeholder. -/
def sizeof_gt511C3_data : Nat := 5

/-- `GT511C3_DATA_FRAME_SIZE(payload_size)`:
`sizeof(gt511C3_data) - sizeof(uint8_t) + payload_size + sizeof(int16_t)`. -/
def GT511C3_DATA_FRAME_SIZE (payload_size : Nat) : Nat :=
  sizeof_gt511C3_data - 1 + payload_size + 2

/-! ### `gt511C3_to_tee`: device status to TEE result translation -/

def gt511C3_to_tee (status : Nat) : Nat :=
  match status with
  | 0x0000 => TEE_SUCCESS                        -- GT511C3_SUCCESS
  | 0x1001 => TEE_ERROR_COMMUNICATION            -- GT511C3_STATUS_TIMEOUT
  | 0x1002 => TEE_ERROR_BAD_PARAMETERS           -- GT511C3_STATUS_INVALID_BAUDRATE
  | 0x1003 => TEE_ERROR_BAD_STATE                -- GT511C3_STATUS_INVALID_POS
  | 0x1004 => TEE_ERROR_BAD_STATE                -- GT511C3_STATUS_IS_NOT_USED
  | 0x1005 => TEE_ERROR_BUSY                     -- GT511C3_STATUS_IS_ALREADY_USED
  | 0x1006 => TEE_ERROR_COMMUNICATION            -- GT511C3_STATUS_COMM_ERR
  | 0x1007 => TEE_ERROR_ACCESS_DENIED            -- GT511C3_STATUS_VERIFY_FAILED
  | 0x1008 => TEE_ERROR_ACCESS_DENIED            -- GT511C3_STATUS_IDENTIFY_FAILED
  | 0x1009 => TEE_ERROR_OUT_OF_MEMORY            -- GT511C3_STATUS_DB_IS_FULL
  | 0x100A => TEE_ERROR_NO_DATA                  -- GT511C3_STATUS_DB_IS_EMPTY
  | 0x100B => TEE_ERROR_BAD_STATE                -- GT511C3_STATUS_TURN_ERR
  | 0x100C => TEE_ERROR_BAD_STATE                -- GT511C3_STATUS_BAD_FINGER
  | 0x100D => TEE_ERROR_BAD_STATE                -- GT511C3_STATUS_ENROLL_FAILED
  | 0x100E => TEE_ERROR_NOT_SUPPORTED            -- GT511C3_STATUS_IS_NOT_SUPPORTED
  | 0x100F => TEE_ERROR_BAD_STATE                -- GT511C3_STATUS_DEV_ERR
  | 0x1010 => TEE_ERROR_CANCEL                   -- GT511C3_STATUS_CAPTURE_CANCELED
  | 0x1011 => TEE_ERROR_BAD_PARAMETERS           -- GT511C3_STATUS_INVALID_PARAM
  | 0x1012 => TEE_ERROR_BAD_STATE                -- GT511C3_STATUS_FINGER_IS_NOT_PRESSED
  | 0xFFFF => TEE_ERROR_GENERIC                  -- GT511C3_STATUS_INVALID
  | _ => TEE_ERROR_GENERIC                       -- default

/-! ### `gt511C3_checksum`: 16-bit wrapping byte-sum

The C accumulator is `int16_t`; `cs += msg[i]` promotes to `int`, adds,
and truncates back to 16 bits, so the bit pattern is `(cs + b) % 65536`. -/

def gt511C3_checksum (msg : List Nat) : Nat :=
  msg.foldl (fun cs b => (cs + b) % 65536) 0

theorem checksum_foldl_lt (msg : List Nat) :
    ∀ s : Nat, s < 65536 →
      msg.foldl (fun cs b => (cs + b) % 65536) s < 65536 := by
  induction msg with
  | nil => intro s hs; simpa using hs
  | cons b t ih =>
      intro s _
      simpa using ih ((s + b) % 65536) (Nat.mod_lt _ (by omega))

theorem checksum_lt (msg : List Nat) : gt511C3_checksum msg < 65536 :=
  checksum_foldl_lt msg 0 (by omega)

theorem checksum_foldl_shift (msg : List Nat) :
    ∀ s : Nat, s < 65536 →
      msg.foldl (fun cs b => (cs + b) % 65536) s =
        (s + msg.foldl (fun cs b => (cs + b) % 65536) 0) % 65536 := by
  induction msg with
  | nil => intro s hs; simpa using (Nat.mod_eq_of_lt hs).symm
  | cons b t ih =>
      intro s hs
      have h1 := ih ((s + b) % 65536) (Nat.mod_lt _ (by omega))
      have h2 := ih ((0 + b) % 65536) (Nat.mod_lt _ (by omega))
      simp only [List.foldl_cons]
      rw [h1, h2]
      omega

/-- Claim C3: the 16-bit checksum distributes over concatenation:
`gt511C3_checksum (a ++ b)` equals the wrapping 16-bit addition of
`gt511C3_checksum a` and `gt511C3_checksum b`; the accumulator wraps
modulo `2^16` rather than widening. -/
theorem checksum_append_wraps (a b : List Nat) :
    gt511C3_checksum (a ++ b) =
      (gt511C3_checksum a + gt511C3_checksum b) % 65536 := by
  unfold gt511C3_checksum
  rw [List.foldl_append]
  exact checksum_foldl_shift b (gt511C3_checksum a) (checksum_lt a)

/-! ### Packed-struct field access

The 12-byte command/response structs are read and written through their
byte images (the C code aliases them as `uint8_t *`). Little-endian. -/

/-- A 16-bit field at byte offset `i` (bit pattern, as stored in `int16_t`). -/
def le16_at (msg : List Nat) (i : Nat) : Nat :=
  ((msg.getD (i + 1) 0) <<< 8 + msg.getD i 0) % 65536

/-- A 32-bit field at byte offset `i` (as stored in `uint32_t`). -/
def le32_at (msg : List Nat) (i : Nat) : Nat :=
  (msg.getD i 0 + (msg.getD (i + 1) 0) <<< 8 +
   (msg.getD (i + 2) 0) <<< 16 + (msg.getD (i + 3) 0) <<< 24) % 4294967296

def le16_bytes (v : Nat) : List Nat := [v % 256, v / 256 % 256]

def le32_bytes (v : Nat) : List Nat :=
  [v % 256, v / 256 % 256, v / 65536 % 256, v / 16777216 % 256]

/-! ### `gt511C3_recv`: raw receive with trailing-checksum verification

`msg` is the byte sequence the UART delivers into the destination buffer
(`msg[i] = (uint8_t)serial->ops->getchar(serial)`); the requested length
is `msg.length`. After the read loop, `cs_length = length - 2`, the
stored checksum is read little-endian from `msg[cs_length]` and
`msg[cs_length + 1]` (cast to `int16_t`, hence the 16-bit wrap), and is
compared with the checksum computed over the first `cs_length` bytes. -/

/-- `msg_cs` of `gt511C3_recv`: the stored trailing checksum,
`(int16_t)((msg[cs_length + 1] << 8) + msg[cs_length])` with
`cs_length = length - 2`. -/
def gt511C3_recv_msg_cs (msg : List Nat) : Nat :=
  ((msg.getD (msg.length - 2 + 1) 0) <<< 8 + msg.getD (msg.length - 2) 0) % 65536

def gt511C3_recv (msg : List Nat) : Nat :=
  if gt511C3_recv_msg_cs msg ≠ gt511C3_checksum (msg.take (msg.length - 2)) then
    TEE_ERROR_COMMUNICATION
  else TEE_SUCCESS

/-! ### `gt511C3_recv_response`

Receives `sizeof(gt511C3_response) = 12` bytes, verifies the trailing
checksum via `gt511C3_recv`, checks the two start-code bytes, and on a
NACK response translates the 32-bit parameter (the device status) via
`gt511C3_to_tee`. `msg` is the 12-byte buffer delivered by the UART. -/

def gt511C3_recv_response (msg : List Nat) : Nat :=
  if gt511C3_recv msg ≠ TEE_SUCCESS then gt511C3_recv msg
  else if msg.getD 0 0 ≠ GT511C3_RSP_START_CODE1 ∨
          msg.getD 1 0 ≠ GT511C3_RSP_START_CODE2 then TEE_ERROR_COMMUNICATION
  else if le16_at msg 8 = GT511C3_RSP_NACK then gt511C3_to_tee (le32_at msg 4)
  else TEE_SUCCESS

/-! ### `gt511C3_recv_data`

Receives a data frame of `GT511C3_DATA_FRAME_SIZE length` bytes into the
static `data_frame` buffer of `sizeof(gt511C3_data_frame) = 65536` bytes,
after a size guard. The result pairs the TEE status with the number of
bytes requested from the transport (0 when the guard fires: the guard
precedes any transport access). `stream` is the sequence of bytes the
UART would deliver. -/

def gt511C3_recv_data (length : Nat) (stream : List Nat) : Nat × Nat :=
  if GT511C3_DATA_FRAME_SIZE length > GT511C3_MAX_PAYLOAD then
    (TEE_ERROR_SHORT_BUFFER, 0)
  else if gt511C3_recv (stream.take (GT511C3_DATA_FRAME_SIZE length)) ≠
      TEE_SUCCESS then
    (gt511C3_recv (stream.take (GT511C3_DATA_FRAME_SIZE length)),
     GT511C3_DATA_FRAME_SIZE length)
  else if (stream.take (GT511C3_DATA_FRAME_SIZE length)).getD 0 0 ≠
            GT511C3_DATA_START_CODE1 ∨
          (stream.take (GT511C3_DATA_FRAME_SIZE length)).getD 1 0 ≠
            GT511C3_DATA_START_CODE2 then
    (TEE_ERROR_COMMUNICATION, GT511C3_DATA_FRAME_SIZE length)
  else (TEE_SUCCESS, GT511C3_DATA_FRAME_SIZE length)

/-! ### Command frame construction

`GT511C3_INIT_COMMAND` zeroes the 12-byte struct, sets the start codes,
the device id and the command code; the caller then stores the 32-bit
parameter; finally `gt511C3_send_cmd` stores
`checksum(first 10 bytes)` into the checksum field at offset 10.
`command` is an `int16_t` assigned from a 32-bit value (truncation),
`parameter` a `uint32_t`. This is the byte image of the transmitted
frame. -/

def gt511C3_command_frame (command parameter : Nat) : List Nat :=
  let body := [GT511C3_CMD_START_CODE1, GT511C3_CMD_START_CODE2,
               GT511C3_CMD_DEVICE_ID, 0x00] ++
              le32_bytes parameter ++ le16_bytes command
  body ++ le16_bytes (gt511C3_checksum body)

/-! ### `gt511C3_send_cmd`

Fills in the checksum field, transmits the 12 command bytes, then calls
`gt511C3_recv_response` on the next 12 bytes the UART delivers. The
result pairs the TEE status with the number of response bytes consumed
from the transport (always 12). -/

def gt511C3_send_cmd (command parameter : Nat) (stream : List Nat) : Nat × Nat :=
  let _transmitted := gt511C3_command_frame command parameter
  (gt511C3_recv_response (stream.take 12), 12)

/-! ### Callers: `gt511c3_cmd_exec` and `gt511c3_open`

Both send a command and, only when it succeeded, go on to receive a data
frame (`gt511c3_open` only when device info was requested; its initial
`gt511C3_init` outcome is abstracted as the `initStatus` input, since the
UART bring-up is outside the protocol core). The second component counts
the bytes consumed from the transport. -/

def gt511c3_cmd_exec (command parameter out_len : Nat) (stream : List Nat) :
    Nat × Nat :=
  if (gt511C3_send_cmd command parameter stream).1 ≠ TEE_SUCCESS then
    gt511C3_send_cmd command parameter stream
  else
    ((gt511C3_recv_data out_len
        (stream.drop (gt511C3_send_cmd command parameter stream).2)).1,
     (gt511C3_send_cmd command parameter stream).2 +
       (gt511C3_recv_data out_len
         (stream.drop (gt511C3_send_cmd command parameter stream).2)).2)

def gt511c3_open (initStatus : Nat) (want_info : Bool) (info_size : Nat)
    (stream : List Nat) : Nat × Nat :=
  if initStatus ≠ TEE_SUCCESS then (initStatus, 0)
  else if (gt511C3_send_cmd GT511C3_CMD_OPEN (if want_info then 1 else 0)
      stream).1 ≠ TEE_SUCCESS then
    gt511C3_send_cmd GT511C3_CMD_OPEN (if want_info then 1 else 0) stream
  else if want_info then
    ((gt511C3_recv_data info_size
        (stream.drop (gt511C3_send_cmd GT511C3_CMD_OPEN 1 stream).2)).1,
     (gt511C3_send_cmd GT511C3_CMD_OPEN 1 stream).2 +
       (gt511C3_recv_data info_size
         (stream.drop (gt511C3_send_cmd GT511C3_CMD_OPEN 1 stream).2)).2)
  else gt511C3_send_cmd GT511C3_CMD_OPEN 0 stream

/-! ### Session state at the PTA entry point

`serial` is a global pointer, `NULL` until `gt511C3_init` succeeds.
`gt511c3_cmd_exec` in the C source dereferences it unconditionally
(`serial->ops->putc` inside `gt511C3_send_cmd`): there is no state
check. A `Closed` session is `none`; dereferencing `none` is the
crash/undefined behaviour, modelled as the `none` outcome. -/

def gt511c3_exec_entry (serial : Option Unit) (command parameter out_len : Nat)
    (stream : List Nat) : Option (Nat × Nat) :=
  match serial with
  | none => none
  | some _ => some (gt511c3_cmd_exec command parameter out_len stream)

/-! ### Buffer indices touched by `gt511C3_recv`

The read loop stores at `msg[i]` for `i < length`; the checksum read
accesses `msg[cs_length]` and `msg[cs_length + 1]` with
`cs_length = length - 2`. -/

def gt511C3_recv_indices (length : Nat) : List Nat :=
  List.range length ++ [length - 2, length - 2 + 1]

/-! ### Helper lemmas -/

theorem gt511C3_recv_cases (msg : List Nat) :
    gt511C3_recv msg = TEE_ERROR_COMMUNICATION ∨
      gt511C3_recv msg = TEE_SUCCESS := by
  unfold gt511C3_recv
  split_ifs <;> simp

theorem to_tee_eq_success_iff (s : Nat) :
    gt511C3_to_tee s = TEE_SUCCESS ↔ s = GT511C3_SUCCESS := by
  unfold gt511C3_to_tee
  split <;>
    first
      | decide
      | (refine iff_of_false (by decide) ?_
         simp only [GT511C3_SUCCESS]
         assumption)

theorem to_tee_not_in_values (s : Nat) (h : s ∉ gt511C3_status_values) :
    gt511C3_to_tee s = TEE_ERROR_GENERIC := by
  unfold gt511C3_to_tee
  split <;> first | rfl | exact absurd (by decide) h


/-! ### Claim C2 -/

/-- Claim C2: `gt511C3_to_tee` is a total deterministic function (a Lean
function on all of `Nat`); every 32-bit value outside the enumerated
`gt511C3_status` set maps to `TEE_ERROR_GENERIC`, and each enumerated
error status maps to exactly the generic kind of the translation table,
with the `GT511C3_STATUS_INVALID` sentinel also mapping to
`TEE_ERROR_GENERIC`. -/
theorem to_tee_table_and_default :
    (∀ s : Nat, s < 4294967296 → s ∉ gt511C3_status_values →
      gt511C3_to_tee s = TEE_ERROR_GENERIC) ∧
    gt511C3_to_tee GT511C3_STATUS_TIMEOUT = TEE_ERROR_COMMUNICATION ∧
    gt511C3_to_tee GT511C3_STATUS_COMM_ERR = TEE_ERROR_COMMUNICATION ∧
    gt511C3_to_tee GT511C3_STATUS_INVALID_BAUDRATE = TEE_ERROR_BAD_PARAMETERS ∧
    gt511C3_to_tee GT511C3_STATUS_INVALID_PARAM = TEE_ERROR_BAD_PARAMETERS ∧
    gt511C3_to_tee GT511C3_STATUS_INVALID_POS = TEE_ERROR_BAD_STATE ∧
    gt511C3_to_tee GT511C3_STATUS_IS_NOT_USED = TEE_ERROR_BAD_STATE ∧
    gt511C3_to_tee GT511C3_STATUS_TURN_ERR = TEE_ERROR_BAD_STATE ∧
    gt511C3_to_tee GT511C3_STATUS_BAD_FINGER = TEE_ERROR_BAD_STATE ∧
    gt511C3_to_tee GT511C3_STATUS_ENROLL_FAILED = TEE_ERROR_BAD_STATE ∧
    gt511C3_to_tee GT511C3_STATUS_DEV_ERR = TEE_ERROR_BAD_STATE ∧
    gt511C3_to_tee GT511C3_STATUS_FINGER_IS_NOT_PRESSED = TEE_ERROR_BAD_STATE ∧
    gt511C3_to_tee GT511C3_STATUS_IS_ALREADY_USED = TEE_ERROR_BUSY ∧
    gt511C3_to_tee GT511C3_STATUS_VERIFY_FAILED = TEE_ERROR_ACCESS_DENIED ∧
    gt511C3_to_tee GT511C3_STATUS_IDENTIFY_FAILED = TEE_ERROR_ACCESS_DENIED ∧
    gt511C3_to_tee GT511C3_STATUS_DB_IS_FULL = TEE_ERROR_OUT_OF_MEMORY ∧
    gt511C3_to_tee GT511C3_STATUS_DB_IS_EMPTY = TEE_ERROR_NO_DATA ∧
    gt511C3_to_tee GT511C3_STATUS_IS_NOT_SUPPORTED = TEE_ERROR_NOT_SUPPORTED ∧
    gt511C3_to_tee GT511C3_STATUS_CAPTURE_CANCELED = TEE_ERROR_CANCEL ∧
    gt511C3_to_tee GT511C3_STATUS_INVALID = TEE_ERROR_GENERIC :=
  ⟨fun s _ h => to_tee_not_in_values s h, by decide⟩

/-- Witness for claim C2 at the concrete unmapped status `0x2000`. -/
theorem to_tee_table_and_default_witness :
    (0x2000 : Nat) < 4294967296 ∧ (0x2000 : Nat) ∉ gt511C3_status_values ∧
    gt511C3_to_tee 0x2000 = TEE_ERROR_GENERIC :=
  ⟨by decide, by decide,
   to_tee_table_and_default.1 0x2000 (by decide) (by decide)⟩

/-! ### Claim C1 -/

/-- A syntactically valid 12-byte NACK response frame whose 32-bit status
parameter is 0 (= `GT511C3_SUCCESS`); its trailing checksum
`0x55 + 0xAA + 0x01 + 0x31 = 0x0131` is stored little-endian. -/
def nack_zero_frame : List Nat :=
  [0x55, 0xAA, 0x01, 0x00, 0x00, 0x00, 0x00, 0x00, 0x31, 0x00, 0x31, 0x01]

/-- Counterexample to claim C1 as stated: this received 12-byte frame has
response kind `GT511C3_RSP_NACK` (0x31), yet `gt511C3_recv_response`
returns `TEE_SUCCESS`, because the NACK parameter 0 is translated by
`gt511C3_to_tee` to `TEE_SUCCESS`. -/
theorem recv_response_nack_zero_returns_success :
    nack_zero_frame.length = 12 ∧
    le16_at nack_zero_frame 8 = GT511C3_RSP_NACK ∧
    le32_at nack_zero_frame 4 = 0 ∧
    gt511C3_recv_response nack_zero_frame = TEE_SUCCESS := by decide

/-- Claim C1 (amended): for every received 12-byte response frame whose
response kind field is `GT511C3_RSP_NACK` and whose 32-bit parameter is
nonzero, `gt511C3_recv_response` never returns success; and whenever the
frame moreover passes the checksum and start-code checks, the returned
outcome is exactly the `gt511C3_to_tee` translation of the parameter. -/
theorem recv_response_nack_nonzero_fails (msg : List Nat)
    (_hlen : msg.length = 12)
    (hnack : le16_at msg 8 = GT511C3_RSP_NACK)
    (hp : le32_at msg 4 ≠ 0) :
    gt511C3_recv_response msg ≠ TEE_SUCCESS ∧
    (gt511C3_recv msg = TEE_SUCCESS →
      msg.getD 0 0 = GT511C3_RSP_START_CODE1 →
      msg.getD 1 0 = GT511C3_RSP_START_CODE2 →
      gt511C3_recv_response msg = gt511C3_to_tee (le32_at msg 4)) := by
  rcases gt511C3_recv_cases msg with hrecv | hrecv
  · have hresp : gt511C3_recv_response msg = TEE_ERROR_COMMUNICATION := by
      unfold gt511C3_recv_response
      rw [hrecv, if_pos (by decide)]
    constructor
    · rw [hresp]; decide
    · intro hok
      rw [hrecv] at hok
      exact absurd hok (by decide)
  · have hne : gt511C3_to_tee (le32_at msg 4) ≠ TEE_SUCCESS := by
      intro hc
      exact hp ((to_tee_eq_success_iff (le32_at msg 4)).mp hc)
    by_cases hm : msg.getD 0 0 ≠ GT511C3_RSP_START_CODE1 ∨
        msg.getD 1 0 ≠ GT511C3_RSP_START_CODE2
    · have hresp : gt511C3_recv_response msg = TEE_ERROR_COMMUNICATION := by
        unfold gt511C3_recv_response
        rw [hrecv, if_neg (by decide), if_pos hm]
      constructor
      · rw [hresp]; decide
      · intro _ h0 h1
        rcases hm with hm2 | hm2
        · exact absurd h0 hm2
        · exact absurd h1 hm2
    · have hresp : gt511C3_recv_response msg = gt511C3_to_tee (le32_at msg 4) := by
        unfold gt511C3_recv_response
        rw [hrecv, if_neg (by decide), if_neg hm, if_pos hnack]
      exact ⟨by rw [hresp]; exact hne, fun _ _ _ => hresp⟩

/-- A valid 12-byte NACK response frame carrying device status
`GT511C3_STATUS_DB_IS_EMPTY` (0x100A); trailing checksum
`0x55 + 0xAA + 0x01 + 0x0A + 0x10 + 0x31 = 0x014B`. -/
def nack_db_empty_frame : List Nat :=
  [0x55, 0xAA, 0x01, 0x00, 0x0A, 0x10, 0x00, 0x00, 0x31, 0x00, 0x4B, 0x01]

/-- Witness for claim C1 (amended) at the concrete DB_IS_EMPTY NACK frame. -/
theorem recv_response_nack_nonzero_fails_witness :
    le16_at nack_db_empty_frame 8 = GT511C3_RSP_NACK ∧
    le32_at nack_db_empty_frame 4 ≠ 0 ∧
    gt511C3_recv_response nack_db_empty_frame ≠ TEE_SUCCESS :=
  ⟨by decide, by decide,
   (recv_response_nack_nonzero_fails nack_db_empty_frame
     (by decide) (by decide) (by decide)).1⟩

/-! ### Claim C4 -/

theorem frame_with_checksum_valid (body : List Nat) (hlen : body.length = 10) :
    le16_at (body ++ le16_bytes (gt511C3_checksum body)) 10 =
      gt511C3_checksum body ∧
    (body ++ le16_bytes (gt511C3_checksum body)).take 10 = body ∧
    gt511C3_recv (body ++ le16_bytes (gt511C3_checksum body)) = TEE_SUCCESS := by
  have hcs := checksum_lt body
  have hget10 : (body ++ le16_bytes (gt511C3_checksum body)).getD 10 0 =
      gt511C3_checksum body % 256 := by
    rw [List.getD_append_right _ _ _ _ (by omega), hlen]
    simp [le16_bytes]
  have hget11 : (body ++ le16_bytes (gt511C3_checksum body)).getD 11 0 =
      gt511C3_checksum body / 256 % 256 := by
    rw [List.getD_append_right _ _ _ _ (by omega), hlen]
    simp [le16_bytes]
  have hflen : (body ++ le16_bytes (gt511C3_checksum body)).length = 12 := by
    simp [le16_bytes, hlen]
  have htake : (body ++ le16_bytes (gt511C3_checksum body)).take 10 = body := by
    rw [← hlen]
    exact List.take_left body _
  have hfield : le16_at (body ++ le16_bytes (gt511C3_checksum body)) 10 =
      gt511C3_checksum body := by
    unfold le16_at
    rw [show (10 : Nat) + 1 = 11 from rfl, hget10, hget11, Nat.shiftLeft_eq]
    have h256 : (2 : Nat) ^ 8 = 256 := by norm_num
    rw [h256]
    omega
  refine ⟨hfield, htake, ?_⟩
  unfold gt511C3_recv
  rw [if_neg ?_]
  rw [hflen]
  unfold gt511C3_recv_msg_cs
  rw [hflen]
  show ¬((body ++ _).getD 11 0 <<< 8 + (body ++ _).getD 10 0) % 65536 ≠ _
  rw [hget10, hget11, Nat.shiftLeft_eq]
  have h256 : (2 : Nat) ^ 8 = 256 := by norm_num
  rw [h256, show (12 : Nat) - 2 = 10 from rfl, htake]
  omega

/-- Claim C4: for every command code and 32-bit parameter, the encoded
12-byte command frame (`GT511C3_INIT_COMMAND` plus the checksum
assignment in `gt511C3_send_cmd`) has its checksum field (offset 10)
equal to the 16-bit additive checksum of its first 10 bytes, so the
frame always passes the `gt511C3_recv` checksum validation. -/
theorem command_frame_checksum_valid (command parameter : Nat) :
    le16_at (gt511C3_command_frame command parameter) 10 =
      gt511C3_checksum ((gt511C3_command_frame command parameter).take 10) ∧
    gt511C3_recv (gt511C3_command_frame command parameter) = TEE_SUCCESS := by
  have hlen : ([GT511C3_CMD_START_CODE1, GT511C3_CMD_START_CODE2,
      GT511C3_CMD_DEVICE_ID, 0x00] ++ le32_bytes parameter ++
      le16_bytes command).length = 10 := by
    simp [le32_bytes, le16_bytes]
  have h := frame_with_checksum_valid _ hlen
  constructor
  · simp only [gt511C3_command_frame]
    rw [h.2.1]
    exact h.1
  · simp only [gt511C3_command_frame]
    exact h.2.2

/-! ### Claim C5 -/

/-- Claim C5: for every requested length of at least 2 and every byte
sequence of that length delivered by the transport, `gt511C3_recv`
compares the checksum of all but the trailing 2 bytes against the
little-endian 16-bit value stored in the trailing 2 bytes, returning
`TEE_SUCCESS` exactly when they agree and `TEE_ERROR_COMMUNICATION`
exactly when they differ. -/
theorem recv_checksum_verdict (msg : List Nat)
    (hlen : 2 ≤ msg.length) (hbytes : ∀ b ∈ msg, b < 256) :
    (gt511C3_recv msg = TEE_SUCCESS ↔
      msg.getD (msg.length - 1) 0 * 256 + msg.getD (msg.length - 2) 0 =
        gt511C3_checksum (msg.take (msg.length - 2))) ∧
    (gt511C3_recv msg = TEE_ERROR_COMMUNICATION ↔
      ¬ msg.getD (msg.length - 1) 0 * 256 + msg.getD (msg.length - 2) 0 =
        gt511C3_checksum (msg.take (msg.length - 2))) := by
  have hhi : msg.getD (msg.length - 1) 0 < 256 := by
    have hn : msg.length - 1 < msg.length := by omega
    rw [List.getD_eq_getElem msg 0 hn]
    exact hbytes _ (List.getElem_mem hn)
  have hlo : msg.getD (msg.length - 2) 0 < 256 := by
    have hn : msg.length - 2 < msg.length := by omega
    rw [List.getD_eq_getElem msg 0 hn]
    exact hbytes _ (List.getElem_mem hn)
  have hidx : msg.length - 2 + 1 = msg.length - 1 := by omega
  have hstored : gt511C3_recv_msg_cs msg =
      msg.getD (msg.length - 1) 0 * 256 + msg.getD (msg.length - 2) 0 := by
    unfold gt511C3_recv_msg_cs
    rw [hidx, Nat.shiftLeft_eq]
    have h256 : (2 : Nat) ^ 8 = 256 := by norm_num
    rw [h256]
    omega
  by_cases heq : msg.getD (msg.length - 1) 0 * 256 + msg.getD (msg.length - 2) 0 =
      gt511C3_checksum (msg.take (msg.length - 2))
  · have hrecv : gt511C3_recv msg = TEE_SUCCESS := by
      unfold gt511C3_recv
      rw [if_neg (by rw [hstored]; simpa using heq)]
    exact ⟨iff_of_true hrecv heq,
           iff_of_false (by rw [hrecv]; decide) (fun hn => hn heq)⟩
  · have hrecv : gt511C3_recv msg = TEE_ERROR_COMMUNICATION := by
      unfold gt511C3_recv
      rw [if_pos (by rw [hstored]; simpa using heq)]
    exact ⟨iff_of_false (by rw [hrecv]; decide) heq, iff_of_true hrecv heq⟩

/-- Witness for claim C5 on a concrete 12-byte all-zero delivery (stored
checksum 0 agrees with the computed checksum 0). -/
theorem recv_checksum_verdict_witness :
    gt511C3_recv [0, 0, 0, 0, 0, 0, 0, 0, 0, 0, 0, 0] = TEE_SUCCESS :=
  ((recv_checksum_verdict [0, 0, 0, 0, 0, 0, 0, 0, 0, 0, 0, 0]
      (by decide) (by decide)).1).mpr (by decide)

/-! ### Claim C7 -/

/-- Claim C7: every 12-byte buffer whose first two bytes are not exactly
`0x55, 0xAA` is rejected by `gt511C3_recv_response` with
`TEE_ERROR_COMMUNICATION` (the code's protocol-error outcome), whatever
the rest of the buffer holds: if the trailing checksum is wrong
`gt511C3_recv` already fails with `TEE_ERROR_COMMUNICATION`, and
otherwise the start-code check fails with the same code. -/
theorem recv_response_bad_start_codes (msg : List Nat)
    (_hlen : msg.length = 12) (_hbytes : ∀ b ∈ msg, b < 256)
    (hbad : msg.getD 0 0 ≠ GT511C3_RSP_START_CODE1 ∨
            msg.getD 1 0 ≠ GT511C3_RSP_START_CODE2) :
    gt511C3_recv_response msg = TEE_ERROR_COMMUNICATION := by
  rcases gt511C3_recv_cases msg with hrecv | hrecv
  · unfold gt511C3_recv_response
    rw [hrecv, if_pos (by decide)]
  · unfold gt511C3_recv_response
    rw [hrecv, if_neg (by decide), if_pos hbad]

/-- Witness for claim C7 at the all-zero 12-byte buffer (first byte 0 is
not the start code 0x55). -/
theorem recv_response_bad_start_codes_witness :
    gt511C3_recv_response [0, 0, 0, 0, 0, 0, 0, 0, 0, 0, 0, 0] =
      TEE_ERROR_COMMUNICATION :=
  recv_response_bad_start_codes [0, 0, 0, 0, 0, 0, 0, 0, 0, 0, 0, 0]
    (by decide) (by decide) (Or.inl (by decide))

/-! ### Claim C6 -/

/-- Claim C6: whenever the data-frame size for the expected payload
length exceeds the 65536-byte receive buffer, `gt511C3_recv_data` fails
with `TEE_ERROR_SHORT_BUFFER` having consumed nothing from the
transport; for payload lengths within the bound the size guard passes
(the short-buffer error is never produced). -/
theorem recv_data_size_guard (payload : Nat) (stream : List Nat) :
    (GT511C3_DATA_FRAME_SIZE payload > GT511C3_MAX_PAYLOAD →
      gt511C3_recv_data payload stream = (TEE_ERROR_SHORT_BUFFER, 0)) ∧
    (GT511C3_DATA_FRAME_SIZE payload ≤ GT511C3_MAX_PAYLOAD →
      (gt511C3_recv_data payload stream).1 ≠ TEE_ERROR_SHORT_BUFFER) := by
  constructor
  · intro h
    unfold gt511C3_recv_data
    rw [if_pos h]
  · intro h
    unfold gt511C3_recv_data
    rw [if_neg (by omega)]
    split_ifs with h1 h2
    · rcases gt511C3_recv_cases
        (stream.take (GT511C3_DATA_FRAME_SIZE payload)) with hr | hr <;>
        · show gt511C3_recv _ ≠ TEE_ERROR_SHORT_BUFFER
          rw [hr]; decide
    · show TEE_ERROR_COMMUNICATION ≠ TEE_ERROR_SHORT_BUFFER
      decide
    · show TEE_SUCCESS ≠ TEE_ERROR_SHORT_BUFFER
      decide

/-- Witness for claim C6: payload length 65531 overflows the frame bound
(65537 > 65536) and is rejected without transport access; payload length
65530 passes the size guard. -/
theorem recv_data_size_guard_witness :
    GT511C3_DATA_FRAME_SIZE 65531 > GT511C3_MAX_PAYLOAD ∧
    gt511C3_recv_data 65531 [] = (TEE_ERROR_SHORT_BUFFER, 0) ∧
    GT511C3_DATA_FRAME_SIZE 65530 ≤ GT511C3_MAX_PAYLOAD ∧
    (gt511C3_recv_data 65530 []).1 ≠ TEE_ERROR_SHORT_BUFFER :=
  ⟨by decide, (recv_data_size_guard 65531 []).1 (by decide),
   by decide, (recv_data_size_guard 65530 []).2 (by decide)⟩

/-! ### Claim C8 -/

/-- Claim C8: when `gt511C3_send_cmd` fails (non-acknowledge response,
checksum mismatch, or start-code mismatch), `gt511c3_cmd_exec` and
`gt511c3_open` return exactly that error having consumed only the 12
response bytes — no data-frame read is attempted; in particular,
executing GET_ENROLL_COUNT with parameter 0 and a 4-byte expected reply
against a transport that answers with a NACK carrying status
DB_IS_EMPTY fails with `TEE_ERROR_NO_DATA` and consumes only the 12
response bytes. -/
theorem send_cmd_failure_stops_exchange :
    (∀ (command parameter out_len : Nat) (stream : List Nat),
      (gt511C3_send_cmd command parameter stream).1 ≠ TEE_SUCCESS →
      gt511c3_cmd_exec command parameter out_len stream =
        ((gt511C3_send_cmd command parameter stream).1, 12)) ∧
    (∀ (want_info : Bool) (info_size : Nat) (stream : List Nat),
      (gt511C3_send_cmd GT511C3_CMD_OPEN (if want_info then 1 else 0)
        stream).1 ≠ TEE_SUCCESS →
      gt511c3_open TEE_SUCCESS want_info info_size stream =
        ((gt511C3_send_cmd GT511C3_CMD_OPEN (if want_info then 1 else 0)
          stream).1, 12)) ∧
    gt511c3_cmd_exec GT511C3_CMD_GET_ENROLL_COUNT 0 4 nack_db_empty_frame =
      (TEE_ERROR_NO_DATA, 12) := by
  refine ⟨?_, ?_, by decide⟩
  · intro command parameter out_len stream h
    unfold gt511c3_cmd_exec
    rw [if_pos h]
    exact rfl
  · intro want_info info_size stream h
    unfold gt511c3_open
    rw [if_neg (by decide), if_pos h]
    exact rfl

/-- Witness for claim C8: both failure-propagation clauses applied to the
concrete NACK/DB_IS_EMPTY response stream. -/
theorem send_cmd_failure_stops_exchange_witness :
    (gt511C3_send_cmd GT511C3_CMD_GET_ENROLL_COUNT 0 nack_db_empty_frame).1 ≠
      TEE_SUCCESS ∧
    gt511c3_cmd_exec GT511C3_CMD_GET_ENROLL_COUNT 0 4 nack_db_empty_frame =
      ((gt511C3_send_cmd GT511C3_CMD_GET_ENROLL_COUNT 0
        nack_db_empty_frame).1, 12) ∧
    (gt511C3_send_cmd GT511C3_CMD_OPEN 0 nack_db_empty_frame).1 ≠
      TEE_SUCCESS ∧
    gt511c3_open TEE_SUCCESS false 8 nack_db_empty_frame =
      ((gt511C3_send_cmd GT511C3_CMD_OPEN 0 nack_db_empty_frame).1, 12) :=
  ⟨by decide,
   send_cmd_failure_stops_exchange.1 GT511C3_CMD_GET_ENROLL_COUNT 0 4
     nack_db_empty_frame (by decide),
   by decide,
   send_cmd_failure_stops_exchange.2.1 false 8 nack_db_empty_frame (by decide)⟩

/-! ### Claim C9 -/

/-- Claim C9 (code-bug evidence): invoking the generic command execution
while the session is Closed (`serial == NULL`, no successful open) does
not return `TEE_ERROR_BAD_STATE`; the C code performs no state check and
dereferences the NULL `serial` pointer inside `gt511C3_send_cmd`, which
the model renders as the crash outcome `none`. -/
theorem exec_entry_closed_crashes (command parameter out_len : Nat)
    (stream : List Nat) :
    gt511c3_exec_entry none command parameter out_len stream = none ∧
    ∀ n : Nat, gt511c3_exec_entry none command parameter out_len stream ≠
      some (TEE_ERROR_BAD_STATE, n) :=
  ⟨rfl, fun _ h => Option.noConfusion h⟩

/-! ### Claim C10 -/

/-- Claim C10: every in-driver call of `gt511C3_recv` passes a length of
at least 5 — 12 for responses, `GT511C3_DATA_FRAME_SIZE payload` for
data frames (only reached once the payload bound check passed) — so the
`length - 2` checksum-offset subtraction never underflows, and every
buffer index touched by the routine, the two trailing checksum positions
`length - 2` and `length - 1` included, lies inside the destination
buffer (the 12-byte response struct, resp. the 65536-byte static data
frame). -/
theorem recv_call_sites_in_bounds (payload : Nat)
    (hfit : GT511C3_DATA_FRAME_SIZE payload ≤ GT511C3_MAX_PAYLOAD) :
    (2 ≤ 12 ∧ 5 ≤ 12 ∧ ∀ i ∈ gt511C3_recv_indices 12, i < 12) ∧
    (2 ≤ GT511C3_DATA_FRAME_SIZE payload ∧
     5 ≤ GT511C3_DATA_FRAME_SIZE payload ∧
     ∀ i ∈ gt511C3_recv_indices (GT511C3_DATA_FRAME_SIZE payload),
       i < GT511C3_MAX_PAYLOAD) := by
  refine ⟨⟨by omega, by omega, by decide⟩, ?_, ?_, ?_⟩
  · unfold GT511C3_DATA_FRAME_SIZE sizeof_gt511C3_data
    omega
  · unfold GT511C3_DATA_FRAME_SIZE sizeof_gt511C3_data
    omega
  · intro i hi
    simp only [gt511C3_recv_indices, List.mem_append, List.mem_range,
      List.mem_cons, List.not_mem_nil, or_false] at hi
    unfold GT511C3_DATA_FRAME_SIZE sizeof_gt511C3_data at hi hfit
    unfold GT511C3_MAX_PAYLOAD at hfit ⊢
    omega

/-- Witness for claim C10 at the concrete payload length 4 (a 10-byte
data frame). -/
theorem recv_call_sites_in_bounds_witness :
    GT511C3_DATA_FRAME_SIZE 4 ≤ GT511C3_MAX_PAYLOAD ∧
    (2 ≤ GT511C3_DATA_FRAME_SIZE 4 ∧
     5 ≤ GT511C3_DATA_FRAME_SIZE 4 ∧
     ∀ i ∈ gt511C3_recv_indices (GT511C3_DATA_FRAME_SIZE 4),
       i < GT511C3_MAX_PAYLOAD) :=
  ⟨by decide, (recv_call_sites_in_bounds 4 (by decide)).2⟩

end GT511C3
